import Mathlib

/-!
Verification of the retail-analytics data-connector layer
(`src/data/connectors/{base,api_connector,factory}.py`) against its
natural-language specification.

The Python code is shallowly embedded: parsed JSON response bodies become the
mutual `Json`/`JsonList`/`JsonFields` inductives; Python dicts become
insertion-ordered association structures; code that can raise is embedded
into `Except String`, the error string standing for the Python exception;
wall-clock time becomes an explicit `PyDateTime` argument.  HTTP itself is
abstracted: a paginated run is driven by the list of response bodies the
server would return, in order.
-/

namespace Retail

mutual
/-- Parsed JSON values (the result of `response.json()`).  Numbers are
modelled as integers, which covers every value the claims touch. -/
inductive Json where
  | null : Json
  | bool : Bool → Json
  | num : Int → Json
  | str : String → Json
  | arr : JsonList → Json
  | obj : JsonFields → Json
deriving Repr

/-- A JSON array's elements. -/
inductive JsonList where
  | nil : JsonList
  | cons : Json → JsonList → JsonList
deriving Repr

/-- A JSON object's fields, in insertion order, like a Python dict. -/
inductive JsonFields where
  | nil : JsonFields
  | cons : String → Json → JsonFields → JsonFields
deriving Repr
end

/-- Build a JSON array from a Lean list. -/
def jarr (l : List Json) : Json := .arr (l.foldr .cons .nil)

/-- Build JSON object fields from a Lean list of pairs. -/
def jf (l : List (String × Json)) : JsonFields :=
  l.foldr (fun kv a => .cons kv.1 kv.2 a) .nil

/-- Build a JSON object from a Lean list of pairs. -/
def jobj (l : List (String × Json)) : Json := .obj (jf l)

/-- Python dict assignment `d[k] = v` on an association list: replace the
value in place if the key is present (insertion order kept), append
otherwise. -/
def dictSet {α : Type} (d : List (String × α)) (k : String) (v : α) : List (String × α) :=
  match d with
  | [] => [(k, v)]
  | (k0, v0) :: rest =>
    if k0 = k then (k0, v) :: rest
    else (k0, v0) :: dictSet rest k v

/-- Python `d.get(k, default)` on an association list. -/
def dictGetD {α : Type} (d : List (String × α)) (k : String) (dflt : α) : α :=
  match d.lookup k with
  | some v => v
  | none => dflt

/-- Python `d.get(k, default)` on a JSON object's fields. -/
def jfGetD (f : JsonFields) (k : String) (dflt : Json) : Json :=
  match f with
  | .nil => dflt
  | .cons k0 v rest => if k0 = k then v else jfGetD rest k dflt

/-- Number of elements of a JSON array. -/
def jlLength : JsonList → Nat
  | .nil => 0
  | .cons _ t => jlLength t + 1

/-- Number of fields of a JSON object. -/
def jfLength : JsonFields → Nat
  | .nil => 0
  | .cons _ _ t => jfLength t + 1

/-- Dict assignment `flattened[new_key] = value` on JSON object fields. -/
def jfSet (f : JsonFields) (k : String) (v : Json) : JsonFields :=
  match f with
  | .nil => .cons k v .nil
  | .cons k0 v0 rest =>
    if k0 = k then .cons k0 v rest
    else .cons k0 v0 (jfSet rest k v)

/-- Concatenation of two field sequences. -/
def jfAppend : JsonFields → JsonFields → JsonFields
  | .nil, g => g
  | .cons k v rest, g => .cons k v (jfAppend rest g)

/-- The keys of a JSON object, in order. -/
def jfKeys : JsonFields → List String
  | .nil => []
  | .cons k _ rest => k :: jfKeys rest

/-- Character-list core of Python `str.split(".")`: cut at every dot,
keeping empty pieces, so `""` splits to `[""]` and `"a.b"` to
`["a", "b"]`. -/
def splitDotChars : List Char → List Char → List String
  | [], acc => [⟨acc.reverse⟩]
  | c :: rest, acc =>
    if c = Char.ofNat 46 then ⟨acc.reverse⟩ :: splitDotChars rest []
    else splitDotChars rest (c :: acc)

/-- Python `path.split(".")`. -/
def splitDot (s : String) : List String := splitDotChars s.data []

/-- Does the second character list start with the first? -/
def startsWithChars : List Char → List Char → Bool
  | p :: ps, c :: cs => (p = c) && startsWithChars ps cs
  | p :: ps, [] => (fun _ _ => false) p ps
  | [], rest => (fun _ => true) rest

/-- Python `s.startswith(t)`. -/
def pyStartsWith (s t : String) : Bool := startsWithChars t.data s.data

/-- Python `s.endswith(t)`. -/
def pyEndsWith (s t : String) : Bool := startsWithChars t.data.reverse s.data.reverse

/-- Python `s[:-1]` for a non-empty string: drop the last character. -/
def pyDropLast (s : String) : String := ⟨s.data.take (s.data.length - 1)⟩

/-- The loop `for key in results_path.split(.): results = results.get(key, [])`
(api_connector.py lines 257-259), over an explicit segment list.  Python's
`.get` exists only on dicts: on any other value the attribute access raises
`AttributeError`. -/
def walkResults (ks : List String) (j : Json) : Except String Json :=
  match ks with
  | [] => .ok j
  | k :: rest =>
    match j with
    | .obj fields => walkResults rest (jfGetD fields k (.arr .nil))
    | _ => .error "AttributeError: object has no attribute get"

/-- Results extraction from a parsed body (api_connector.py lines 255-261):
an empty `results_path` means the whole body, otherwise the body is walked
segment by segment with `.get(key, [])`. -/
def extractResults (resultsPath : String) (data : Json) : Except String Json :=
  if resultsPath = "" then .ok data
  else walkResults (splitDot resultsPath) data

/-- Every lookup along the path lands on a dict, so the faithful walk cannot
raise: the defaulted value of each non-final segment is again an object. -/
def isDictPath : List String → Json → Bool
  | [], _ => true
  | k :: rest, j =>
    match j with
    | .obj fields => isDictPath rest (jfGetD fields k (.arr .nil))
    | _ => false

/-- The `.get(key)` walk without a default, used for `total_count_path`
(lines 265-268) and `next_cursor_path` (lines 297-300).  A missing key on a
dict gives Python `None` (here `.null`); `.get` on a non-dict raises
`AttributeError`, which neither `except (TypeError, ValueError)` handler
catches, so it escapes the generator. -/
def walkAttr (ks : List String) (j : Json) : Except String Json :=
  match ks with
  | [] => .ok j
  | k :: rest =>
    match j with
    | .obj fields => walkAttr rest (jfGetD fields k .null)
    | _ => .error "AttributeError: object has no attribute get"

/-- Model of `int(v)` under a handler catching `TypeError` and `ValueError`
(lines 269-270): `none` models the caught conversion failure. -/
def pyIntOpt : Json → Option Int
  | .num n => some n
  | .bool b => some (if b then 1 else 0)
  | .str s => s.toInt?
  | _ => none

/-- Python truthiness, for `and next_cursor:` on line 239. -/
def truthy : Json → Bool
  | .null => false
  | .bool b => b
  | .num n => n != 0
  | .str s => !(s == "")
  | .arr .nil => false
  | .arr (.cons _ _) => true
  | .obj .nil => false
  | .obj (.cons _ _ _) => true

/-- Model of `next_cursor is not None and next_cursor != ""` (line 302); a missing
cursor key arrived here as `None`/`.null`. -/
def cursorMore : Json → Bool
  | .null => false
  | .str s => !(s == "")
  | _ => true

/-- Model of `len(results)`: sized values only, `TypeError` otherwise. -/
def pyLen : Json → Except String Nat
  | .arr xs => .ok (jlLength xs)
  | .obj fs => .ok (jfLength fs)
  | .str s => .ok s.length
  | _ => .error "TypeError: object has no len"

/-- Model of `current_offset + limit` (line 278), where `limit` came out of the
params dict as a JSON value. -/
def pyAdd (a : Int) : Json → Except String Int
  | .num n => .ok (a + n)
  | .bool b => .ok (a + if b then 1 else 0)
  | _ => .error "TypeError: unsupported operand types for add"

/-- Model of `len(results) == limit` (lines 279 and 287): an int/bool limit compares
numerically, any other limit value compares unequal without raising. -/
def lenEqLimit (n : Nat) : Json → Bool
  | .num m => (n : Int) == m
  | .bool b => (n : Int) == (if b then 1 else 0)
  | _ => false

/-- Model of `(current_page - 1) * limit < total_count` (line 291). -/
def pyMulLt (a : Int) (j : Json) (t : Int) : Except String Bool :=
  match j with
  | .num m => .ok (decide (a * m < t))
  | .bool b => .ok (decide (a * (if b then 1 else 0) < t))
  | _ => .error "TypeError: unsupported operand types for mul"

/-- The three pagination styles accepted on line 201. -/
inductive PagType where
  | offset : PagType
  | page : PagType
  | cursor : PagType
deriving Repr, DecidableEq

/-- The pagination configuration after the defaulting reads on lines
204-211 and 295: `limitParam`, `offsetParam` (position key), `resultsPath`,
`totalCountPath` and `nextCursorPath` hold the resolved string values, with
`""` standing for an absent path. -/
structure PagConfig where
  ptype : PagType
  limitParam : String
  offsetParam : String
  resultsPath : String
  totalCountPath : String
  nextCursorPath : String
deriving Repr

/-- How a modelled pagination run ends: `finished` is `more_pages` turning
false, `err` is an exception escaping the generator, `exhausted` means the
engine asked for one more page than the scenario supplied. -/
inductive RunOutcome where
  | finished : RunOutcome
  | exhausted : RunOutcome
  | err : String → RunOutcome
deriving Repr, DecidableEq

/-- Observable trace of one `_handle_pagination` run: the params snapshot
sent with each GET, the pages yielded, and how the run ended. -/
structure RunResult where
  requests : List (List (String × Json))
  yields : List Json
  outcome : RunOutcome
deriving Repr

/-- The `while more_pages` loop of `_handle_pagination` (lines 233-312),
driven by the list of JSON bodies the server returns, one per GET.  State
threaded exactly as in the source: the params dict (mutated in place), the
`current_offset`, `current_page` and `next_cursor` variables and the learned
`total_count`.  The loop-top parameter update for page mode is the source's
line 238, `params[offset_param] == current_page` — a comparison, not an
assignment, hence a no-op here.  Rate limiting (lines 309-312) has no
observable effect on the trace and is omitted. -/
def runLoop (cfg : PagConfig) (limitJ : Json) :
    List Json → List (String × Json) → Int → Int → Json → Option Int → RunResult
  | [], _, _, _, _, _ => ⟨[], [], .exhausted⟩
  | data :: rest, ps, off, pg, cur, tc =>
    let ps1 := match cfg.ptype with
      | .offset => dictSet ps cfg.offsetParam (.num off)
      | .page => ps
      | .cursor => if truthy cur then dictSet ps cfg.offsetParam cur else ps
    match extractResults cfg.resultsPath data with
    | .error e => ⟨[ps1], [], .err e⟩
    | .ok results =>
      let tcE : Except String (Option Int) :=
        if tc.isNone ∧ cfg.totalCountPath ≠ "" then
          match walkAttr (splitDot cfg.totalCountPath) data with
          | .error e => .error e
          | .ok v =>
            .ok (match pyIntOpt v with
                 | some n => some n
                 | none => tc)
        else .ok tc
      match tcE with
      | .error e => ⟨[ps1], [], .err e⟩
      | .ok tc1 =>
        let adv : Except String (Int × Int × Json × Bool) :=
          match cfg.ptype with
          | .offset =>
            match pyAdd off limitJ with
            | .error e => .error e
            | .ok off1 =>
              match pyLen results with
              | .error e => .error e
              | .ok n =>
                let more := match tc1 with
                  | some t => decide (off1 < t)
                  | none => lenEqLimit n limitJ
                .ok (off1, pg, cur, more)
          | .page =>
            match pyLen results with
            | .error e => .error e
            | .ok n =>
              match tc1 with
              | some t =>
                match pyMulLt (pg + 1 - 1) limitJ t with
                | .error e => .error e
                | .ok b => .ok (off, pg + 1, cur, b)
              | none => .ok (off, pg + 1, cur, lenEqLimit n limitJ)
          | .cursor =>
            if cfg.nextCursorPath ≠ "" then
              match walkAttr (splitDot cfg.nextCursorPath) data with
              | .error e => .error e
              | .ok c => .ok (off, pg, c, cursorMore c)
            else .ok (off, pg, cur, false)
        match adv with
        | .error e => ⟨[ps1], [results], .err e⟩
        | .ok (off1, pg1, cur1, more) =>
          if more then
            let r := runLoop cfg limitJ rest ps1 off1 pg1 cur1 tc1
            ⟨ps1 :: r.requests, results :: r.yields, r.outcome⟩
          else ⟨[ps1], [results], .finished⟩

/-- Model of `_handle_pagination` (lines 184-312) for a supported pagination type:
reads `limit` from the params with default 100 (line 214), seeds the
position parameter (offset mode starts the params at offset 0, page mode at
page 1, cursor mode leaves them untouched, lines 217-224), then runs the
loop against the supplied server responses. -/
def handlePagination (cfg : PagConfig) (params0 : List (String × Json))
    (responses : List Json) : RunResult :=
  let limitJ := dictGetD params0 cfg.limitParam (.num 100)
  match cfg.ptype with
  | .offset => runLoop cfg limitJ responses (dictSet params0 cfg.offsetParam (.num 0)) 0 1 .null none
  | .page => runLoop cfg limitJ responses (dictSet params0 cfg.offsetParam (.num 1)) 0 1 .null none
  | .cursor => runLoop cfg limitJ responses params0 0 1 .null none

/-- A single-quote character, for reproducing Python repr output. -/
def sq : String := String.singleton (Char.ofNat 39)

/-- The auth sub-dict of the connector config after the defaulting `get`
calls on lines 124-142: `authType` is `auth.get("type")` and may be absent,
the credential fields carry the code's defaults when missing. -/
structure AuthConfig where
  authType : Option String
  apiKeyName : String
  apiKey : String
  username : String
  password : String
  token : String
deriving Repr, DecidableEq

/-- Observable result of `APIConnector.connect` (lines 87-154): the boolean
return, the session header dict, the session's `auth` attribute (a
`requests` basic-auth pair; `none` is the `requests.Session` default), and
the metadata update the error handler applied (`none` when untouched). -/
structure ConnectResult where
  returnValue : Bool
  sessionHeaders : List (String × String)
  sessionAuth : Option (String × String)
  metaStatus : Option String
  metaError : Option String
deriving Repr, DecidableEq

/-- Model of `APIConnector.connect` (lines 87-154).  The retry-adapter mounting
(lines 99-110) has no effect observable here and is omitted.  Headers are
the Python merge `{**default_headers, **config_headers}` applied to the
session.  The auth switch is embedded faithfully, including line 134:
`self.session.auth(username, password)` calls the session's `auth`
attribute, which is still `None`, so basic auth raises
`TypeError: NoneType object is not callable`; the handler on lines 148-154
catches it, records error metadata and returns `False`. -/
def connect (name : String) (cfgHeaders : List (String × String)) (auth : AuthConfig) :
    ConnectResult :=
  let defaultHeaders : List (String × String) :=
    [("User-Agent", "RetailAnalytics/" ++ name),
     ("Content-Type", "application/json"),
     ("Accept", "application/json")]
  let headers := cfgHeaders.foldl (fun acc kv => dictSet acc kv.1 kv.2) defaultHeaders
  match auth.authType with
  | some "api_key" =>
    ⟨true, dictSet headers auth.apiKeyName auth.apiKey, none, none, none⟩
  | some "basic" =>
    ⟨false, headers, none, some "error",
     some ("Connection failed: " ++ sq ++ "NoneType" ++ sq ++ " object is not callable")⟩
  | some "bearer" =>
    ⟨true, dictSet headers "Authorization" ("Bearer " ++ auth.token), none, none, none⟩
  | some "oauth" =>
    ⟨true, dictSet headers "Authorization" ("Bearer " ++ auth.token), none, none, none⟩
  | _ => ⟨true, headers, none, none, none⟩

/-- The metadata fields the extract path reads and writes. -/
structure Meta where
  status : String
  error : Option String
deriving Repr, DecidableEq

/-- Model of `DataConnector.__init__` metadata (base.py lines 39-47), restricted to
the fields above. -/
def initMeta : Meta := ⟨"initialized", none⟩

/-- Outcome of one `extract()` call: a normal return with the combined
records, or a propagated exception; either way paired with the metadata
state at that moment. -/
inductive ExtractOutcome where
  | completed : List Json → Meta → ExtractOutcome
  | raised : String → Meta → ExtractOutcome
deriving Repr

/-- Body of `APIConnector.extract` past the connection guard (lines
337-426).  `endpointName` is `kwargs.get("endpoint")` (Python falsiness:
absent or empty both fail the check on line 337, which raises before line
341 ever updates the metadata); `fetched` stands for everything inside the
`try` on lines 357-416 — `.ok` the combined record list on success,
`.error` the message of whatever exception the fetch or conversion raised.
An exception inside the `try` hits the handler on lines 418-426, which
records error status and the prefixed message, then re-raises. -/
def extractBody (endpointName : Option String) (meta0 : Meta)
    (fetched : Except String (List Json)) : ExtractOutcome :=
  if endpointName.getD "" = "" then .raised "Endpoint name must be specified" meta0
  else
    let meta1 : Meta := ⟨"in_progress", meta0.error⟩
    match fetched with
    | .error e => .raised e ⟨"error", some ("Extraction failed: " ++ e)⟩
    | .ok rs => .completed rs ⟨"completed", meta1.error⟩

/-- Control skeleton of `APIConnector.extract` (lines 314-426), including
the guard `if not self.session and not self.connect()` on line 328.
`sessionPresent` is the truthiness of `self.session` at entry; when no
session exists, `connect()` runs first, and its outcome — including the
metadata update its failure handler performs on lines 148-153 BEFORE the
guard's RuntimeError is raised — is taken from the `connect` model applied
to the connector's name, configured headers and auth settings. -/
def extractRun (sessionPresent : Bool) (name : String)
    (cfgHeaders : List (String × String)) (auth : AuthConfig)
    (endpointName : Option String) (meta0 : Meta)
    (fetched : Except String (List Json)) : ExtractOutcome :=
  if sessionPresent then extractBody endpointName meta0 fetched
  else
    let cres := connect name cfgHeaders auth
    let meta1 : Meta :=
      match cres.metaStatus with
      | some s => ⟨s, cres.metaError⟩
      | none => meta0
    if cres.returnValue then extractBody endpointName meta1 fetched
    else .raised "Not connected to API" meta1

mutual
/-- Model of `json.dumps` restricted to the default separators, as used on line 448
to serialize list values.  String escaping of special characters is not
modelled; the values in scope are plain. -/
def jsonDumps : Json → String
  | .null => "null"
  | .bool b => if b then "true" else "false"
  | .num n => toString n
  | .str s => "\"" ++ s ++ "\""
  | .arr xs => "[" ++ jsonDumpsList xs ++ "]"
  | .obj fs => "\x7b" ++ jsonDumpsFields fs ++ "\x7d"

/-- Comma-joined serialization of array elements. -/
def jsonDumpsList : JsonList → String
  | .nil => ""
  | .cons x .nil => jsonDumps x
  | .cons x (.cons y t) => jsonDumps x ++ ", " ++ jsonDumpsList (.cons y t)

/-- Comma-joined serialization of object fields. -/
def jsonDumpsFields : JsonFields → String
  | .nil => ""
  | .cons k v .nil => "\"" ++ k ++ "\": " ++ jsonDumps v
  | .cons k v (.cons k2 v2 t) =>
    "\"" ++ k ++ "\": " ++ jsonDumps v ++ ", " ++ jsonDumpsFields (.cons k2 v2 t)
end

mutual
/-- One iteration of the `_flatten_json` loop body (lines 437-450) for the
item `newKey : v`, writing into the output dict `acc`: dict values recurse
with the dot-joined key, list values are `json.dumps`-serialized, scalars
are copied. -/
def flattenValue : String → Json → JsonFields → JsonFields
  | newKey, .obj fields, acc => flattenFields newKey fields acc
  | newKey, .arr xs, acc => jfSet acc newKey (.str (jsonDumps (.arr xs)))
  | newKey, other, acc => jfSet acc newKey other

/-- Model of `_flatten_json` (lines 428-450): walk the items of `items` under key
prefix `pre` in order, accumulating into the output dict `acc`; the new key
is the bare key at the top level and the dot-joined key below (lines
438-441). -/
def flattenFields : String → JsonFields → JsonFields → JsonFields
  | _, .nil, acc => acc
  | pre, .cons k v rest, acc =>
    flattenFields pre rest (flattenValue (if pre = "" then k else pre ++ "." ++ k) v acc)
end

/-- The call `self._flatten_json(item, flattened_item)` on line 391: flatten
one record into a fresh dict with the empty prefix. -/
def flattenJson (item : JsonFields) : JsonFields :=
  flattenFields "" item .nil

/-- A value a flat record may hold: anything but a dict or a list. -/
def isFlatValue : Json → Bool
  | .obj _ => false
  | .arr _ => false
  | _ => true

/-- Are all the values of a record flat? -/
def jfAllFlat : JsonFields → Bool
  | .nil => true
  | .cons _ v rest => isFlatValue v && jfAllFlat rest

/-- Model of `_get_url` (lines 156-182): endpoint looked up in the config's
`endpoints` map with default `""`; an absolute http(s) endpoint is returned
verbatim; otherwise one slash is normalized between base and endpoint. -/
def getUrl (baseUrl : String) (endpoints : List (String × String)) (endpointName : String) :
    String :=
  let endpoint := (endpoints.lookup endpointName).getD ""
  if pyStartsWith endpoint "http://" || pyStartsWith endpoint "https://" then endpoint
  else
    let b := if pyEndsWith baseUrl "/" then pyDropLast baseUrl else baseUrl
    let e := if endpoint ≠ "" ∧ ¬pyStartsWith endpoint "/" then "/" ++ endpoint else endpoint
    b ++ e

/-- Python's repr of the supported-tags list, as interpolated into the
factory's error message (factory.py line 64): `[` `'tag'` … `]`. -/
def supportedTypesRepr (tags : List String) : String :=
  "[" ++ String.intercalate ", " (tags.map (fun t => sq ++ t ++ sq)) ++ "]"

/-- Model of `ConnectorFactory.register_connector_type` (factory.py lines 34-44).
A connector class is modelled by its constructor: a function from name and
config to the built instance (`κ` is the instance type); the registry is
the `CONNECTOR_TYPES` dict. -/
def registerConnectorType {κ : Type} (reg : List (String × (String → Json → κ)))
    (tag : String) (cls : String → Json → κ) : List (String × (String → Json → κ)) :=
  dictSet reg tag cls

/-- Model of `ConnectorFactory.create_connector` (factory.py lines 46-71): an
unregistered tag raises `ValueError` naming the supported tags; a registered
tag builds an instance with the registered class. -/
def createConnector {κ : Type} (reg : List (String × (String → Json → κ)))
    (name ty : String) (cfg : Json) : Except String κ :=
  match reg.lookup ty with
  | none =>
    .error ("Unsupported connector type: " ++ ty ++ ". Supported types: " ++
      supportedTypesRepr (reg.map Prod.fst))
  | some cls => .ok (cls name cfg)

/-- A wall-clock instant as `datetime.now()` observes it.  The microsecond
field exists so the second-level truncation of `strftime` is visible. -/
structure PyDateTime where
  year : Nat
  month : Nat
  day : Nat
  hour : Nat
  minute : Nat
  second : Nat
  microsecond : Nat
deriving Repr, DecidableEq

/-- Zero-pad to two digits, as `%m %d %H %M %S` do. -/
def pad2 (n : Nat) : String :=
  if n < 10 then "0" ++ toString n else toString n

/-- Zero-pad to four digits, as `%Y` does for the years in scope. -/
def pad4 (n : Nat) : String :=
  if n < 10 then "000" ++ toString n
  else if n < 100 then "00" ++ toString n
  else if n < 1000 then "0" ++ toString n
  else toString n

/-- Model of `datetime.now().strftime("%Y%m%d%H%M%S")` (base.py line 126): whole
seconds only — the microsecond field is dropped. -/
def strftimeSeconds (t : PyDateTime) : String :=
  pad4 t.year ++ pad2 t.month ++ pad2 t.day ++ pad2 t.hour ++ pad2 t.minute ++ pad2 t.second

/-- UTF-8 encoding of one character, for `str.encode()`. -/
def utf8EncodeChar (c : Char) : List Nat :=
  let n := c.toNat
  if n < 128 then [n]
  else if n < 2048 then [192 ||| (n >>> 6), 128 ||| (n &&& 63)]
  else if n < 65536 then
    [224 ||| (n >>> 12), 128 ||| ((n >>> 6) &&& 63), 128 ||| (n &&& 63)]
  else
    [240 ||| (n >>> 18), 128 ||| ((n >>> 12) &&& 63),
     128 ||| ((n >>> 6) &&& 63), 128 ||| (n &&& 63)]

/-- Model of `unique_string.encode()` (base.py line 128): the UTF-8 byte sequence. -/
def utf8Encode (s : String) : List Nat :=
  s.data.flatMap utf8EncodeChar

/-- 2^32, the word modulus of MD5. -/
def w32 : Nat := 4294967296

/-- Bitwise complement on a 32-bit word. -/
def not32 (x : Nat) : Nat := x ^^^ 4294967295

/-- Left-rotation of a 32-bit word. -/
def rotl32 (x c : Nat) : Nat := ((x <<< c) % w32) ||| (x >>> (32 - c))

/-- The MD5 sine-derived round constants `K[0..63]`. -/
def md5K (i : Nat) : Nat :=
  [0xd76aa478, 0xe8c7b756, 0x242070db, 0xc1bdceee,
   0xf57c0faf, 0x4787c62a, 0xa8304613, 0xfd469501,
   0x698098d8, 0x8b44f7af, 0xffff5bb1, 0x895cd7be,
   0x6b901122, 0xfd987193, 0xa679438e, 0x49b40821,
   0xf61e2562, 0xc040b340, 0x265e5a51, 0xe9b6c7aa,
   0xd62f105d, 0x02441453, 0xd8a1e681, 0xe7d3fbc8,
   0x21e1cde6, 0xc33707d6, 0xf4d50d87, 0x455a14ed,
   0xa9e3e905, 0xfcefa3f8, 0x676f02d9, 0x8d2a4c8a,
   0xfffa3942, 0x8771f681, 0x6d9d6122, 0xfde5380c,
   0xa4beea44, 0x4bdecfa9, 0xf6bb4b60, 0xbebfbc70,
   0x289b7ec6, 0xeaa127fa, 0xd4ef3085, 0x04881d05,
   0xd9d4d039, 0xe6db99e5, 0x1fa27cf8, 0xc4ac5665,
   0xf4292244, 0x432aff97, 0xab9423a7, 0xfc93a039,
   0x655b59c3, 0x8f0ccc92, 0xffeff47d, 0x85845dd1,
   0x6fa87e4f, 0xfe2ce6e0, 0xa3014314, 0x4e0811a1,
   0xf7537e82, 0xbd3af235, 0x2ad7d2bb, 0xeb86d391].getD i 0

/-- The MD5 per-round shift amounts `s[0..63]`. -/
def md5S (i : Nat) : Nat :=
  [7, 12, 17, 22, 7, 12, 17, 22, 7, 12, 17, 22, 7, 12, 17, 22,
   5, 9, 14, 20, 5, 9, 14, 20, 5, 9, 14, 20, 5, 9, 14, 20,
   4, 11, 16, 23, 4, 11, 16, 23, 4, 11, 16, 23, 4, 11, 16, 23,
   6, 10, 15, 21, 6, 10, 15, 21, 6, 10, 15, 21, 6, 10, 15, 21].getD i 0

/-- One MD5 round on the state `(a, b, c, d)`, message schedule `M`. -/
def md5Round (M : Nat → Nat) (st : Nat × Nat × Nat × Nat) (i : Nat) :
    Nat × Nat × Nat × Nat :=
  let a := st.1
  let b := st.2.1
  let c := st.2.2.1
  let d := st.2.2.2
  let fg : Nat × Nat :=
    if i < 16 then ((b &&& c) ||| (not32 b &&& d), i)
    else if i < 32 then ((d &&& b) ||| (not32 d &&& c), (5 * i + 1) % 16)
    else if i < 48 then (b ^^^ c ^^^ d, (3 * i + 5) % 16)
    else (c ^^^ (b ||| not32 d), (7 * i) % 16)
  let f1 := (fg.1 + a + md5K i + M fg.2) % w32
  (d, (b + rotl32 f1 (md5S i)) % w32, b, c)

/-- One 64-byte block folded into the state. -/
def md5Compress (block : List Nat) (st : Nat × Nat × Nat × Nat) :
    Nat × Nat × Nat × Nat :=
  let M : Nat → Nat := fun j =>
    block.getD (4 * j) 0 + 256 * block.getD (4 * j + 1) 0 +
      65536 * block.getD (4 * j + 2) 0 + 16777216 * block.getD (4 * j + 3) 0
  let r := (List.range 64).foldl (md5Round M) st
  ((st.1 + r.1) % w32, (st.2.1 + r.2.1) % w32,
   (st.2.2.1 + r.2.2.1) % w32, (st.2.2.2 + r.2.2.2) % w32)

/-- Fold `n` consecutive 64-byte blocks of a padded message into the
state. -/
def md5Blocks : Nat → List Nat → Nat × Nat × Nat × Nat → Nat × Nat × Nat × Nat
  | 0, _, st => st
  | n + 1, bytes, st => md5Blocks n (bytes.drop 64) (md5Compress (bytes.take 64) st)

/-- MD5 padding: `0x80`, zeros to 56 mod 64, then the 64-bit little-endian
bit length. -/
def md5Pad (msg : List Nat) : List Nat :=
  let l := msg.length
  msg ++ 128 :: List.replicate ((119 - l % 64) % 64) 0 ++
    (List.range 8).map (fun i => ((8 * l) >>> (8 * i)) % 256)

/-- Little-endian bytes of one 32-bit word. -/
def wordLEBytes (w : Nat) : List Nat :=
  [w % 256, (w / 256) % 256, (w / 65536) % 256, (w / 16777216) % 256]

/-- The 16-byte MD5 digest of a byte sequence: pad, then compress every
64-byte block in order. -/
def md5Bytes (msg : List Nat) : List Nat :=
  let padded := md5Pad msg
  let st := md5Blocks (padded.length / 64) padded
    (0x67452301, 0xefcdab89, 0x98badcfe, 0x10325476)
  wordLEBytes st.1 ++ wordLEBytes st.2.1 ++ wordLEBytes st.2.2.1 ++ wordLEBytes st.2.2.2

/-- The sixteen lowercase hex digit characters of `hexdigest()`. -/
def hexDigits : List Char := "0123456789abcdef".data

/-- Hex digit for a nibble. -/
def hexDigit (n : Nat) : Char := hexDigits.getD (n % 16) (Char.ofNat 48)

/-- Two lowercase hex characters of one byte. -/
def byteHexChars (b : Nat) : List Char := [hexDigit (b / 16), hexDigit b]

/-- The character list of `hashlib.md5(bytes).hexdigest()`. -/
def md5HexChars (msg : List Nat) : List Char :=
  (md5Bytes msg).flatMap byteHexChars

/-- Model of `hashlib.md5(bytes).hexdigest()`: the 32-character lowercase hex
digest. -/
def md5Hex (msg : List Nat) : String := ⟨md5HexChars msg⟩

/-- Model of `DataConnector.generate_batch_id` (base.py lines 119-128): the MD5 hex
digest of `f"{self.name}_{timestamp}"` where the timestamp is `now`
formatted to whole seconds. -/
def generateBatchId (name : String) (now : PyDateTime) : String :=
  md5Hex (utf8Encode (name ++ "_" ++ strftimeSeconds now))

/-- Cursor mode's continuation signal (lines 293-307): a next-cursor value
was found at `next_cursor_path` and is neither `None` nor the empty
string.  `false` covers all three stopping cases: no configured path, a
missing (hence `None`) cursor, and a walk that raises. -/
def cursorSignal (cfg : PagConfig) (data : Json) : Bool :=
  if cfg.nextCursorPath = "" then false
  else
    match walkAttr (splitDot cfg.nextCursorPath) data with
    | .ok c => cursorMore c
    | .error _ => false

/-- A page-mode pagination configuration: position parameter `page`,
limit 2, whole body as results. -/
def pageBugCfg : PagConfig := ⟨.page, "limit", "page", "", "", ""⟩

/-- Request params carrying `limit = 2`. -/
def pageBugParams : List (String × Json) := [("limit", .num 2)]

/-- A three-page server: two full pages of two records, then one short
page. -/
def pageBugResponses : List Json :=
  [jarr [.num 1, .num 2], jarr [.num 3, .num 4], jarr [.num 5]]

/-- An offset-mode pagination configuration with results under `data` and
no total-count path. -/
def offsetWitCfg : PagConfig := ⟨.offset, "limit", "offset", "data", "", ""⟩

/-- A cursor-mode pagination configuration with results under `data` and
next cursor under `next`. -/
def cursorWitCfg : PagConfig := ⟨.cursor, "limit", "cursor", "data", "", "next"⟩

/-- A cursor-mode response: one record under `data`, next cursor "abc"
under `next`. -/
def cursorWitData : Json := jobj [("data", jarr [.num 1]), ("next", .str "abc")]

/-- Basic-auth configuration: `auth.type = "basic"` with credentials. -/
def basicAuth : AuthConfig := ⟨some "basic", "X-API-Key", "", "alice", "secret", ""⟩

/-- Bearer-auth configuration with a token. -/
def bearerAuth : AuthConfig := ⟨some "bearer", "X-API-Key", "", "", "", "tok123"⟩

/-- API-key auth configuration. -/
def apiKeyAuth : AuthConfig := ⟨some "api_key", "X-API-Key", "k-123", "", "", ""⟩

/-- OAuth configuration (token already obtained). -/
def oauthAuth : AuthConfig := ⟨some "oauth", "X-API-Key", "", "", "", "tok456"⟩

theorem walkResults_isOk_of_isDictPath (ks : List String) (j : Json)
    (h : isDictPath ks j = true) : (walkResults ks j).isOk = true := by
  induction ks generalizing j with
  | nil => rfl
  | cons k rest ih =>
    cases j with
    | obj fields =>
      simp only [walkResults]
      exact ih _ (by simpa [isDictPath] using h)
    | null => simp [isDictPath] at h
    | bool b => simp [isDictPath] at h
    | num n => simp [isDictPath] at h
    | str s => simp [isDictPath] at h
    | arr xs => simp [isDictPath] at h

set_option maxRecDepth 40000 in
/-- The MD5 model agrees with the RFC 1321 test suite on `"abc"`. -/
theorem md5_model_matches_rfc_vector :
    md5Hex (utf8Encode "abc") = "900150983cd24fb0d6963f7d28e17f72" := by decide

/-- C1: the claim fails on the code — in a page-mode run with limit 2 and
three pages, every GET request carries position parameter `page = 1`, where
the claim requires the (k+1)-th request to carry k+1.  Line 238 writes
`params[offset_param] == current_page`, a comparison instead of an
assignment, so only the pre-loop seeding to 1 ever reaches the params;
the run still yields all three pages and terminates via the length
heuristic. -/
theorem page_mode_position_parameter_never_advances :
    (handlePagination pageBugCfg pageBugParams pageBugResponses).requests.map
      (fun ps => ps.lookup "page") =
      [some (Json.num 1), some (Json.num 1), some (Json.num 1)] ∧
    (handlePagination pageBugCfg pageBugParams pageBugResponses).yields.length = 3 ∧
    (handlePagination pageBugCfg pageBugParams pageBugResponses).outcome = .finished :=
  ⟨rfl, rfl, rfl⟩

/-- C2: the claim fails on the code for basic auth — `connect` with
`auth.type = "basic"` returns false with error metadata and never installs
the credentials, because line 134 calls the session's `auth` attribute
(still `None`) instead of assigning to it; the other three modes return
true as claimed. -/
theorem connect_basic_auth_raises_and_returns_false :
    (connect "c" [] basicAuth).returnValue = false ∧
    (connect "c" [] basicAuth).metaStatus = some "error" ∧
    (connect "c" [] basicAuth).metaError =
      some ("Connection failed: " ++ sq ++ "NoneType" ++ sq ++ " object is not callable") ∧
    (connect "c" [] basicAuth).sessionAuth = none ∧
    (connect "c" [] apiKeyAuth).returnValue = true ∧
    (connect "c" [] bearerAuth).returnValue = true ∧
    (connect "c" [] oauthAuth).returnValue = true :=
  ⟨rfl, rfl, rfl, rfl, rfl, rfl, rfl⟩

/-- C3 counterexample: the missing-endpoint failure propagates out of
`extract()` with the metadata untouched — status is still `"initialized"`,
not `"error"` — because the check on line 337 raises before line 341 first
updates the metadata.  The run is fully traced through a successful
`connect()` (bearer auth), whose success path performs no metadata update
either. -/
theorem extract_missing_endpoint_leaves_metadata :
    extractRun false "c" [] bearerAuth none initMeta (.ok []) =
      .raised "Endpoint name must be specified" initMeta ∧
    initMeta.status = "initialized" :=
  ⟨rfl, rfl⟩

/-- A `False` return from `connect` comes only out of its exception handler
(lines 148-153), which always records status `"error"` and an error field
of the form `Connection failed: ...` before returning. -/
theorem connect_false_error_metadata (name : String) (hdrs : List (String × String))
    (auth : AuthConfig) (h : (connect name hdrs auth).returnValue = false) :
    (connect name hdrs auth).metaStatus = some "error" ∧
    ∃ m, (connect name hdrs auth).metaError = some ("Connection failed: " ++ m) := by
  cases hA : auth.authType with
  | none => simp [connect, hA] at h
  | some s =>
    by_cases h1 : s = "api_key"
    · subst h1
      simp [connect, hA] at h
    · by_cases h2 : s = "basic"
      · subst h2
        exact ⟨by simp [connect, hA],
          sq ++ "NoneType" ++ sq ++ " object is not callable",
          by simp [connect, hA, String.append_assoc]⟩
      · by_cases h3 : s = "bearer"
        · subst h3
          simp [connect, hA] at h
        · by_cases h4 : s = "oauth"
          · subst h4
            simp [connect, hA] at h
          · simp [connect, hA, h1, h2, h3, h4] at h

/-- C3 (amended): an exception raised inside the `try` block of `extract()`
propagates with metadata status `"error"` and that exception's prefixed
message.  The "not connected" RuntimeError also propagates with status
`"error"`, but the error field carries the preceding connection failure's
message (`Connection failed: ...`, written by `connect()`'s handler before
the guard raises), not the RuntimeError's own message.  The
missing-endpoint failure propagates with the metadata exactly as it was. -/
theorem extract_error_metadata_on_try_failures :
    (∀ (sp : Bool) (name : String) (hdrs : List (String × String)) (auth : AuthConfig)
        (meta0 : Meta) (ep e : String), ep ≠ "" →
      (sp = true ∨ (connect name hdrs auth).returnValue = true) →
      extractRun sp name hdrs auth (some ep) meta0 (.error e) =
        .raised e ⟨"error", some ("Extraction failed: " ++ e)⟩) ∧
    (∀ (name : String) (hdrs : List (String × String)) (auth : AuthConfig)
        (meta0 : Meta) (epn : Option String) (f : Except String (List Json)),
      (connect name hdrs auth).returnValue = false →
      extractRun false name hdrs auth epn meta0 f =
        .raised "Not connected to API" ⟨"error", (connect name hdrs auth).metaError⟩ ∧
      ∃ m, (connect name hdrs auth).metaError = some ("Connection failed: " ++ m)) ∧
    (∀ (name : String) (hdrs : List (String × String)) (auth : AuthConfig)
        (meta0 : Meta) (f : Except String (List Json)),
      extractRun true name hdrs auth none meta0 f =
        .raised "Endpoint name must be specified" meta0) := by
  refine ⟨fun sp name hdrs auth meta0 ep e hep hcon => ?_,
    fun name hdrs auth meta0 epn f h => ?_, fun name hdrs auth meta0 f => ?_⟩
  · rcases hcon with hsp | hrv
    · subst hsp
      simp [extractRun, extractBody, Option.getD, hep]
    · cases sp with
      | true => simp [extractRun, extractBody, Option.getD, hep]
      | false => simp [extractRun, extractBody, Option.getD, hep, hrv]
  · obtain ⟨hstat, m, herr⟩ := connect_false_error_metadata name hdrs auth h
    exact ⟨by simp [extractRun, hstat, h], m, herr⟩
  · simp [extractRun, extractBody]

/-- Witness for the amended C3 theorem at a concrete failing fetch. -/
theorem extract_error_metadata_on_try_failures_witness :
    extractRun true "c" [] bearerAuth (some "products") initMeta (.error "boom") =
      .raised "boom" ⟨"error", some "Extraction failed: boom"⟩ :=
  extract_error_metadata_on_try_failures.1 true "c" [] bearerAuth initMeta
    "products" "boom" (by decide) (Or.inl rfl)

/-- C4 counterexample: with `results_path = "a.b"` and response body `{}`,
the walk raises `AttributeError` — the first missing segment defaults to
`[]`, and `.get` on that list blows up — instead of returning the empty
array. -/
theorem results_walk_raises_on_deep_missing_path :
    extractResults "a.b" (jobj []) =
      .error "AttributeError: object has no attribute get" := rfl

/-- C4 (amended): an empty `results_path` yields the whole body; a
single-segment path on an object body is total, a missing key giving the
empty array; and in general the walk cannot raise as long as every lookup
lands on a dict — but a missing non-final segment leaves a list, and the
next `.get` raises. -/
theorem results_walk_total_cases :
    (∀ data : Json, extractResults "" data = .ok data) ∧
    (∀ (fields : JsonFields) (k : String),
      walkResults [k] (.obj fields) = .ok (jfGetD fields k (.arr .nil))) ∧
    (∀ (ks : List String) (j : Json), isDictPath ks j = true →
      (walkResults ks j).isOk = true) := by
  refine ⟨fun data => ?_, fun fields k => rfl, walkResults_isOk_of_isDictPath⟩
  simp [extractResults]

/-- Witness for the amended C4 theorem on a two-segment all-dict path. -/
theorem results_walk_total_cases_witness :
    (walkResults ["a", "b"] (jobj [("a", jobj [("b", .num 7)])])).isOk = true :=
  results_walk_total_cases.2.2 ["a", "b"] (jobj [("a", jobj [("b", .num 7)])]) (by decide)

/-- C8: URL construction — trailing-slash base with bare endpoint and
bare base with leading-slash endpoint both normalize to a single slash; and
any endpoint that is itself an absolute http(s) URL is returned verbatim,
whatever the base. -/
theorem getUrl_normalizes_slash_and_absolute_endpoint :
    getUrl "https://api.example.com/v1/" [("products", "products")] "products" =
      "https://api.example.com/v1/products" ∧
    getUrl "https://api.example.com/v1" [("products", "/products")] "products" =
      "https://api.example.com/v1/products" ∧
    (∀ (base : String) (eps : List (String × String)) (nm ep : String),
      eps.lookup nm = some ep →
      (pyStartsWith ep "http://" = true ∨ pyStartsWith ep "https://" = true) →
      getUrl base eps nm = ep) := by
  refine ⟨rfl, rfl, fun base eps nm ep hl h => ?_⟩
  unfold getUrl
  rw [hl]
  rcases h with h | h <;> simp [Option.getD, h]

/-- Witness for C8's verbatim rule at a concrete absolute endpoint. -/
theorem getUrl_absolute_endpoint_witness :
    getUrl "https://api.example.com/v1" [("ext", "https://other.example.com/x")] "ext" =
      "https://other.example.com/x" :=
  getUrl_normalizes_slash_and_absolute_endpoint.2.2 "https://api.example.com/v1"
    [("ext", "https://other.example.com/x")] "ext" "https://other.example.com/x"
    rfl (Or.inr rfl)

theorem lookup_dictSet {α : Type} (d : List (String × α)) (k : String) (v : α) :
    (dictSet d k v).lookup k = some v := by
  induction d with
  | nil => simp [dictSet]
  | cons kv rest ih =>
    obtain ⟨k0, v0⟩ := kv
    by_cases h : k0 = k
    · subst h
      simp [dictSet]
    · have hb : (k == k0) = false := by
        simp [beq_eq_false_iff_ne]
        exact fun he => h he.symm
      simp [dictSet, h, List.lookup, hb, ih]

/-- C9: requesting an unregistered type tag fails with the exact error
message naming the supported tags, and after registering a class under a
tag, creating that tag returns the instance the class builds from the name
and config. -/
theorem factory_unsupported_error_and_register_create {κ : Type} :
    (∀ (reg : List (String × (String → Json → κ))) (name ty : String) (cfg : Json),
      reg.lookup ty = none →
      createConnector reg name ty cfg =
        .error ("Unsupported connector type: " ++ ty ++ ". Supported types: " ++
          supportedTypesRepr (reg.map Prod.fst))) ∧
    (∀ (reg : List (String × (String → Json → κ))) (tag : String)
        (cls : String → Json → κ) (name : String) (cfg : Json),
      createConnector (registerConnectorType reg tag cls) name tag cfg =
        .ok (cls name cfg)) := by
  constructor
  · intro reg name ty cfg h
    simp [createConnector, h]
  · intro reg tag cls name cfg
    simp [createConnector, registerConnectorType, lookup_dictSet]

/-- Witness for C9: "graphql" is unsupported on an empty registry, and
becomes creatable right after registration. -/
theorem factory_witness :
    createConnector ([] : List (String × (String → Json → Nat))) "g" "graphql" Json.null =
      .error "Unsupported connector type: graphql. Supported types: []" ∧
    createConnector
        (registerConnectorType ([] : List (String × (String → Json → Nat)))
          "graphql" (fun _ _ => 7)) "g" "graphql" Json.null = .ok 7 :=
  ⟨factory_unsupported_error_and_register_create.1 [] "g" "graphql" Json.null rfl,
   factory_unsupported_error_and_register_create.2 [] "graphql" (fun _ _ => 7) "g" Json.null⟩

theorem jfAppend_nil : ∀ acc : JsonFields, jfAppend acc .nil = acc
  | .nil => rfl
  | .cons k v rest => by simp [jfAppend, jfAppend_nil rest]

theorem jfAppend_assoc : ∀ a b c : JsonFields,
    jfAppend (jfAppend a b) c = jfAppend a (jfAppend b c)
  | .nil, _, _ => rfl
  | .cons k v rest, b, c => by simp [jfAppend, jfAppend_assoc rest b c]

theorem jfKeys_append : ∀ a b : JsonFields, jfKeys (jfAppend a b) = jfKeys a ++ jfKeys b
  | .nil, _ => rfl
  | .cons k v rest, b => by simp [jfAppend, jfKeys, jfKeys_append rest b]

theorem jfSet_append_of_not_mem : ∀ (f : JsonFields) (k : String) (v : Json),
    k ∉ jfKeys f → jfSet f k v = jfAppend f (.cons k v .nil)
  | .nil, _, _, _ => rfl
  | .cons k0 v0 rest, k, v, h => by
    have hne : k0 ≠ k := by
      intro he
      exact h (by simp [jfKeys, he])
    have h2 : k ∉ jfKeys rest := by
      intro hm
      exact h (by simp [jfKeys, hm])
    simp [jfSet, hne, jfAppend, jfSet_append_of_not_mem rest k v h2]

theorem flatten_flat_aux : ∀ f acc : JsonFields, jfAllFlat f = true →
    (jfKeys f).Nodup → (∀ k ∈ jfKeys f, k ∉ jfKeys acc) →
    flattenFields "" f acc = jfAppend acc f
  | .nil, acc, _, _, _ => by simp [flattenFields, jfAppend_nil]
  | .cons k v rest, acc, hflat, hnodup, hdisj => by
    have hflat1 : isFlatValue v = true := by
      have h := hflat
      simp [jfAllFlat, Bool.and_eq_true] at h
      exact h.1
    have hflat2 : jfAllFlat rest = true := by
      have h := hflat
      simp [jfAllFlat, Bool.and_eq_true] at h
      exact h.2
    have hk_rest : k ∉ jfKeys rest := by
      have h := hnodup
      simp [jfKeys, List.nodup_cons] at h
      exact h.1
    have hnodup2 : (jfKeys rest).Nodup := by
      have h := hnodup
      simp [jfKeys, List.nodup_cons] at h
      exact h.2
    have hkacc : k ∉ jfKeys acc := hdisj k (by simp [jfKeys])
    have hset : flattenValue k v acc = jfSet acc k v := by
      cases v with
      | obj fs => simp [isFlatValue] at hflat1
      | arr xs => simp [isFlatValue] at hflat1
      | null => rfl
      | bool b => rfl
      | num n => rfl
      | str s => rfl
    have hdisj2 : ∀ k2 ∈ jfKeys rest, k2 ∉ jfKeys (jfAppend acc (.cons k v .nil)) := by
      intro k2 hk2
      rw [jfKeys_append]
      simp only [jfKeys, List.mem_append, List.mem_cons, List.not_mem_nil, or_false]
      refine not_or.mpr ⟨hdisj k2 (by simp [jfKeys, hk2]), fun he => hk_rest (he ▸ hk2)⟩
    calc flattenFields "" (.cons k v rest) acc
        = flattenFields "" rest (flattenValue k v acc) := by simp [flattenFields]
      _ = flattenFields "" rest (jfAppend acc (.cons k v .nil)) := by
          rw [hset, jfSet_append_of_not_mem acc k v hkacc]
      _ = jfAppend (jfAppend acc (.cons k v .nil)) rest :=
          flatten_flat_aux rest _ hflat2 hnodup2 hdisj2
      _ = jfAppend acc (.cons k v rest) := by
          rw [jfAppend_assoc]
          rfl

/-- C7: flattening is the identity on every already-flat record (values
neither dicts nor lists, keys distinct), and the nested record
`{"a": {"b": 1, "c": [1, 2]}}` flattens to
`{"a.b": 1, "a.c": "[1, 2]"}` — the nested dict's keys dot-joined and the
list serialized to its string form. -/
theorem flatten_flat_identity_and_nested_example :
    (∀ f : JsonFields, jfAllFlat f = true → (jfKeys f).Nodup → flattenJson f = f) ∧
    flattenJson (jf [("a", jobj [("b", .num 1), ("c", jarr [.num 1, .num 2])])]) =
      jf [("a.b", .num 1), ("a.c", .str "[1, 2]")] := by
  constructor
  · intro f hflat hnodup
    have h := flatten_flat_aux f .nil hflat hnodup (by simp [jfKeys])
    simpa [flattenJson, jfAppend] using h
  · rfl

/-- Witness for C7 on the already-flat record of the claim. -/
theorem flatten_flat_identity_witness :
    flattenJson (jf [("a", .num 1), ("b", .str "x")]) =
      jf [("a", .num 1), ("b", .str "x")] :=
  flatten_flat_identity_and_nested_example.1 (jf [("a", .num 1), ("b", .str "x")])
    (by decide) (by decide)

theorem runLoop_offset_step (cfg : PagConfig) (hty : cfg.ptype = .offset)
    (htc : cfg.totalCountPath = "") (L : Int) (data : Json) (rest : List Json)
    (ps : List (String × Json)) (off pg : Int) (cur : Json) (xs : JsonList)
    (hres : extractResults cfg.resultsPath data = .ok (.arr xs)) :
    runLoop cfg (.num L) (data :: rest) ps off pg cur none =
      (if (jlLength xs : Int) = L then
        ⟨dictSet ps cfg.offsetParam (.num off) ::
            (runLoop cfg (.num L) rest (dictSet ps cfg.offsetParam (.num off))
              (off + L) pg cur none).requests,
          Json.arr xs ::
            (runLoop cfg (.num L) rest (dictSet ps cfg.offsetParam (.num off))
              (off + L) pg cur none).yields,
          (runLoop cfg (.num L) rest (dictSet ps cfg.offsetParam (.num off))
            (off + L) pg cur none).outcome⟩
      else ⟨[dictSet ps cfg.offsetParam (.num off)], [Json.arr xs], .finished⟩) := by
  by_cases hL : (jlLength xs : Int) = L
  · have hbeq : ((jlLength xs : Int) == L) = true := by simpa [beq_iff_eq] using hL
    simp [runLoop, hty, hres, htc, pyAdd, pyLen, lenEqLimit, hbeq, hL]
  · have hbeq : ((jlLength xs : Int) == L) = false := by simpa [beq_iff_eq] using hL
    simp [runLoop, hty, hres, htc, pyAdd, pyLen, lenEqLimit, hbeq, hL]

theorem runLoop_offset_full_pages (cfg : PagConfig) (hty : cfg.ptype = .offset)
    (htc : cfg.totalCountPath = "") (L : Int) (lastR : Json) (ys : JsonList)
    (hlast : extractResults cfg.resultsPath lastR = .ok (.arr ys))
    (hshort : (jlLength ys : Int) ≠ L) :
    ∀ rs : List Json, (∀ r ∈ rs, ∃ xs : JsonList,
        extractResults cfg.resultsPath r = .ok (.arr xs) ∧ (jlLength xs : Int) = L) →
    ∀ (ps : List (String × Json)) (off pg : Int) (cur : Json),
      (runLoop cfg (.num L) (rs ++ [lastR]) ps off pg cur none).requests.length
          = rs.length + 1 ∧
      (runLoop cfg (.num L) (rs ++ [lastR]) ps off pg cur none).yields.length
          = rs.length + 1 ∧
      (runLoop cfg (.num L) (rs ++ [lastR]) ps off pg cur none).outcome = .finished := by
  intro rs
  induction rs with
  | nil =>
    intro _ ps off pg cur
    rw [List.nil_append,
      runLoop_offset_step cfg hty htc L lastR [] ps off pg cur ys hlast,
      if_neg hshort]
    simp
  | cons r rs ih =>
    intro hfull ps off pg cur
    obtain ⟨xs, hr, hlen⟩ := hfull r (List.mem_cons_self r rs)
    rw [List.cons_append,
      runLoop_offset_step cfg hty htc L r (rs ++ [lastR]) ps off pg cur xs hr,
      if_pos hlen]
    have h2 := ih (fun r2 hr2 => hfull r2 (List.mem_cons_of_mem r hr2))
      (dictSet ps cfg.offsetParam (.num off)) (off + L) pg cur
    simp [h2.1, h2.2.1, h2.2.2]

/-- C5: for every offset-mode run with no total-count path in which the
server answers with N pages whose result arrays have length exactly the
limit, followed by one strictly shorter page, the engine issues exactly
N+1 GET requests, yields N+1 page arrays, and terminates normally. -/
theorem offset_short_page_run_terminates (cfg : PagConfig)
    (params0 : List (String × Json)) (L : Int) (rs : List Json) (lastR : Json)
    (ys : JsonList)
    (hty : cfg.ptype = .offset) (htc : cfg.totalCountPath = "")
    (hlim : dictGetD params0 cfg.limitParam (.num 100) = .num L)
    (hfull : ∀ r ∈ rs, ∃ xs : JsonList,
      extractResults cfg.resultsPath r = .ok (.arr xs) ∧ (jlLength xs : Int) = L)
    (hlast : extractResults cfg.resultsPath lastR = .ok (.arr ys))
    (hshort : (jlLength ys : Int) < L) :
    (handlePagination cfg params0 (rs ++ [lastR])).requests.length = rs.length + 1 ∧
    (handlePagination cfg params0 (rs ++ [lastR])).yields.length = rs.length + 1 ∧
    (handlePagination cfg params0 (rs ++ [lastR])).outcome = .finished := by
  have hne : (jlLength ys : Int) ≠ L := ne_of_lt hshort
  simp only [handlePagination, hlim, hty]
  exact runLoop_offset_full_pages cfg hty htc L lastR ys hlast hne rs hfull
    (dictSet params0 cfg.offsetParam (.num 0)) 0 1 .null

/-- Witness for C5: one full page of two records then a short page of one,
with limit 2 — two requests, two yields, normal termination. -/
theorem offset_short_page_run_terminates_witness :
    (handlePagination offsetWitCfg [("limit", .num 2)]
        ([jobj [("data", jarr [.num 1, .num 2])]] ++
          [jobj [("data", jarr [.num 3])]])).requests.length =
      [jobj [("data", jarr [.num 1, .num 2])]].length + 1 ∧
    (handlePagination offsetWitCfg [("limit", .num 2)]
        ([jobj [("data", jarr [.num 1, .num 2])]] ++
          [jobj [("data", jarr [.num 3])]])).yields.length =
      [jobj [("data", jarr [.num 1, .num 2])]].length + 1 ∧
    (handlePagination offsetWitCfg [("limit", .num 2)]
        ([jobj [("data", jarr [.num 1, .num 2])]] ++
          [jobj [("data", jarr [.num 3])]])).outcome = .finished :=
  offset_short_page_run_terminates offsetWitCfg [("limit", .num 2)] 2
    [jobj [("data", jarr [.num 1, .num 2])]] (jobj [("data", jarr [.num 3])])
    (.cons (.num 3) .nil) rfl rfl rfl
    (by
      intro r hr
      simp only [List.mem_singleton] at hr
      subst hr
      exact ⟨.cons (.num 1) (.cons (.num 2) .nil), rfl, rfl⟩)
    rfl (by decide)

/-- C6: in cursor mode (with no total-count extraction in play) the engine
continues past a page exactly when a non-empty next-cursor value is found
at `next_cursor_path`: when the signal is absent — path unset, cursor
missing or empty, or the cursor walk failing — the run stops with exactly
one request and exactly that page yielded; when a non-empty cursor is
found, the loop recurses into the remaining responses, one request and one
yield prepended.  No page-length condition appears in either direction. -/
theorem cursor_continue_iff_nonempty_next_cursor
    (cfg : PagConfig) (limitJ : Json) (data : Json) (rest : List Json)
    (ps : List (String × Json)) (off pg : Int) (cur : Json) (results : Json)
    (hty : cfg.ptype = .cursor) (htc : cfg.totalCountPath = "")
    (hres : extractResults cfg.resultsPath data = .ok results) :
    (cursorSignal cfg data = false →
      (runLoop cfg limitJ (data :: rest) ps off pg cur none).requests =
        [if truthy cur then dictSet ps cfg.offsetParam cur else ps] ∧
      (runLoop cfg limitJ (data :: rest) ps off pg cur none).yields = [results]) ∧
    (cursorSignal cfg data = true →
      ∃ c, walkAttr (splitDot cfg.nextCursorPath) data = .ok c ∧ cursorMore c = true ∧
        runLoop cfg limitJ (data :: rest) ps off pg cur none =
          ⟨(if truthy cur then dictSet ps cfg.offsetParam cur else ps) ::
              (runLoop cfg limitJ rest
                (if truthy cur then dictSet ps cfg.offsetParam cur else ps)
                off pg c none).requests,
            results ::
              (runLoop cfg limitJ rest
                (if truthy cur then dictSet ps cfg.offsetParam cur else ps)
                off pg c none).yields,
            (runLoop cfg limitJ rest
              (if truthy cur then dictSet ps cfg.offsetParam cur else ps)
              off pg c none).outcome⟩) := by
  by_cases hnp : cfg.nextCursorPath = ""
  · constructor
    · intro _
      constructor <;> simp [runLoop, hty, hres, htc, hnp]
    · intro hsig
      simp [cursorSignal, hnp] at hsig
  · cases hw : walkAttr (splitDot cfg.nextCursorPath) data with
    | error e =>
      constructor
      · intro _
        constructor <;> simp [runLoop, hty, hres, htc, hnp, hw]
      · intro hsig
        simp [cursorSignal, hnp, hw] at hsig
    | ok c =>
      cases hc : cursorMore c with
      | false =>
        constructor
        · intro _
          constructor <;> simp [runLoop, hty, hres, htc, hnp, hw, hc]
        · intro hsig
          simp [cursorSignal, hnp, hw, hc] at hsig
      | true =>
        constructor
        · intro hsig
          simp [cursorSignal, hnp, hw, hc] at hsig
        · intro _
          refine ⟨c, rfl, hc, ?_⟩
          simp [runLoop, hty, hres, htc, hnp, hw, hc]

/-- Witness for C6 at a concrete page whose cursor "abc" is present: the
engine yields the page and asks for a further response (none supplied
here, so the scenario ends exhausted rather than finished). -/
theorem cursor_continue_witness :
    ∃ c, walkAttr (splitDot cursorWitCfg.nextCursorPath) cursorWitData = .ok c ∧
      cursorMore c = true ∧
      runLoop cursorWitCfg (.num 2) [cursorWitData] [("limit", .num 2)] 0 1 .null none =
        ⟨[[("limit", .num 2)]], [jarr [.num 1]], .exhausted⟩ :=
  (cursor_continue_iff_nonempty_next_cursor cursorWitCfg (.num 2) cursorWitData []
    [("limit", .num 2)] 0 1 .null (jarr [.num 1]) rfl rfl rfl).2 (by decide)

theorem md5Bytes_length (msg : List Nat) : (md5Bytes msg).length = 16 := by
  simp [md5Bytes, wordLEBytes]

theorem flatMap_byteHexChars_length (l : List Nat) :
    (l.flatMap byteHexChars).length = 2 * l.length := by
  induction l with
  | nil => rfl
  | cons a t ih =>
    simp [List.flatMap_cons, byteHexChars, ih]
    omega

theorem hexDigit_mem (n : Nat) : hexDigit n ∈ hexDigits := by
  have h : n % 16 < hexDigits.length := by
    have : n % 16 < 16 := Nat.mod_lt _ (by norm_num)
    simpa [hexDigits] using this
  rw [hexDigit, List.getD_eq_getElem hexDigits (Char.ofNat 48) h]
  exact List.getElem_mem h

/-- C10: the batch id depends only on the connector name and the wall-clock
time truncated to whole seconds — two instants in the same second (any
microseconds) give the identical id — and every id is a 32-character string
over the lowercase hex alphabet.  In particular, distinct extractions by a
same-named connector within one second share the same batch id. -/
theorem generate_batch_id_second_granularity (name : String) (t1 t2 : PyDateTime)
    (hy : t1.year = t2.year) (hmo : t1.month = t2.month) (hd : t1.day = t2.day)
    (hh : t1.hour = t2.hour) (hmi : t1.minute = t2.minute)
    (hs : t1.second = t2.second) :
    generateBatchId name t1 = generateBatchId name t2 ∧
    (generateBatchId name t1).length = 32 ∧
    ∀ c ∈ (generateBatchId name t1).data, c ∈ hexDigits := by
  have hts : strftimeSeconds t1 = strftimeSeconds t2 := by
    rw [strftimeSeconds, strftimeSeconds, hy, hmo, hd, hh, hmi, hs]
  refine ⟨by rw [generateBatchId, generateBatchId, hts], ?_, ?_⟩
  · have h1 : (generateBatchId name t1).length =
        (md5HexChars (utf8Encode (name ++ "_" ++ strftimeSeconds t1))).length := rfl
    rw [h1, md5HexChars, flatMap_byteHexChars_length, md5Bytes_length]
  · intro c hc
    have h2 : (generateBatchId name t1).data =
        (md5Bytes (utf8Encode (name ++ "_" ++ strftimeSeconds t1))).flatMap
          byteHexChars := rfl
    rw [h2, List.mem_flatMap] at hc
    obtain ⟨b, _, hcb⟩ := hc
    simp only [byteHexChars, List.mem_cons, List.not_mem_nil, or_false] at hcb
    rcases hcb with h | h <;> (subst h; exact hexDigit_mem _)

/-- Witness for C10: two calls within second 2026-10-12 03:04:05, one at
microsecond 111 and one at 999, produce the identical 32-character hex
id. -/
theorem generate_batch_id_second_granularity_witness :
    generateBatchId "product-api" ⟨2026, 10, 12, 3, 4, 5, 111⟩ =
      generateBatchId "product-api" ⟨2026, 10, 12, 3, 4, 5, 999⟩ ∧
    (generateBatchId "product-api" ⟨2026, 10, 12, 3, 4, 5, 111⟩).length = 32 ∧
    ∀ c ∈ (generateBatchId "product-api" ⟨2026, 10, 12, 3, 4, 5, 111⟩).data,
      c ∈ hexDigits :=
  generate_batch_id_second_granularity "product-api" ⟨2026, 10, 12, 3, 4, 5, 111⟩
    ⟨2026, 10, 12, 3, 4, 5, 999⟩ rfl rfl rfl rfl rfl rfl

end Retail
